import Mathlib

/-!
Shallow embedding of `src/icp_rust_boilerplate_backend/src/lib.rs`, a timber
inventory/sales canister.  The canister state (the two stable BTree maps and
the id counter cell) is modelled as an explicit `State` record threaded
through every operation; the stable BTree maps are modelled as association
lists kept sorted by key (the map iterates in ascending key order); `u64`
arithmetic is `Nat` with an explicit `% 2^64` where overflow matters; the
wall-clock source `time()` is passed in as a `now : Nat` argument.
-/

namespace Timberyard

/-- The `u64` modulus: `u64::MAX + 1`. -/
def U64MOD : Nat := 2 ^ 64

/-- Embeds `const VALID_TIMBER_TYPES: &[&str]` from the source. -/
def VALID_TIMBER_TYPES : List String := ["cyprus", "pine", "oak", "cedar", "spruce"]

/-- Embeds `const VALID_TIMBER_SIZES: &[&str]` from the source. -/
def VALID_TIMBER_SIZES : List String :=
  ["2x4", "2x6", "2x8", "2x10", "3x2", "3x4", "4x2", "4x4", "4x6", "6x2", "6x4",
   "8x2", "8x4", "10x2", "10x4"]

/-- Embeds `struct Timber` from the source. -/
structure Timber where
  id : Nat
  timber_type : String
  timber_size : String
  quantity : Nat
  created_at : Nat
  updated_at : Option Nat
deriving DecidableEq, Repr

/-- Embeds `struct Sales` from the source. -/
structure Sales where
  id : Nat
  timber_id : Nat
  quantity : Nat
  price : Nat
  created_at : Nat
  updated_at : Option Nat
deriving DecidableEq, Repr

/-- Embeds `struct TimberPayload` from the source. -/
structure TimberPayload where
  timber_type : String
  timber_size : String
  quantity : Nat
deriving DecidableEq, Repr

/-- Embeds `struct SalesPayload` from the source. -/
structure SalesPayload where
  timber_id : Nat
  quantity : Nat
  price : Nat
deriving DecidableEq, Repr

/-- Embeds `struct SalesUpdatePayload` from the source (the `id` field is carried
but unused by `update_sales`, which takes the id as a separate argument). -/
structure SalesUpdatePayload where
  id : Nat
  quantity : Nat
  price : Nat
deriving DecidableEq, Repr

/-- Embeds `struct TimberUpdatePayload` from the source. -/
structure TimberUpdatePayload where
  id : Nat
  timber_type : String
  timber_size : String
  quantity : Nat
deriving DecidableEq, Repr

/-- Point lookup in the association-list model of `StableBTreeMap::get`. -/
def mapGet {α : Type} (m : List (Nat × α)) (id : Nat) : Option α :=
  match m with
  | [] => none
  | (k, v) :: rest => if k = id then some v else mapGet rest id

/-- Upsert in the association-list model of `StableBTreeMap::insert`:
keeps the list sorted by key and overwrites an existing key. -/
def mapInsert {α : Type} (id : Nat) (v : α) : List (Nat × α) → List (Nat × α)
  | [] => [(id, v)]
  | (k, w) :: rest =>
    if id < k then (id, v) :: (k, w) :: rest
    else if id = k then (id, v) :: rest
    else (k, w) :: mapInsert id v rest

/-- Removal in the association-list model of `StableBTreeMap::remove`. -/
def mapRemove {α : Type} (id : Nat) : List (Nat × α) → List (Nat × α)
  | [] => []
  | (k, w) :: rest => if k = id then rest else (k, w) :: mapRemove id rest

/-- The canister state: `ID_COUNTER`, `TIMBER_STORAGE`, `SALES_STORAGE`. -/
structure State where
  counter : Nat
  timbers : List (Nat × Timber)
  sales : List (Nat × Sales)
deriving DecidableEq, Repr

/-- The state at canister installation: counter cell initialised to 0,
both maps empty. -/
def initState : State := { counter := 0, timbers := [], sales := [] }

/-- Embeds `fn generate_unique_id() -> u64`: reads the counter cell, adds 1 in
`u64` arithmetic, persists the incremented value and returns it. -/
def generate_unique_id (s : State) : Nat × State :=
  let id := (s.counter + 1) % U64MOD
  (id, { s with counter := id })

/-- Rust `Debug` rendering of a `&[&str]` slice, as produced by the
source's error `format!("... {:?}", VALID_...)` calls. -/
def rustDebugList (xs : List String) : String :=
  "[" ++ String.intercalate ", " (xs.map (fun x => "\"" ++ x ++ "\"")) ++ "]"

/-- The `add_timber`/`update_timber` invalid-type error message. -/
def invalidTimberTypeMsg (t : String) : String :=
  "Invalid timber type: " ++ t ++ ". Valid types are: " ++ rustDebugList VALID_TIMBER_TYPES

/-- The `add_timber`/`update_timber` invalid-size error message. -/
def invalidTimberSizeMsg (sz : String) : String :=
  "Invalid timber size: " ++ sz ++ ". Valid sizes are: " ++ rustDebugList VALID_TIMBER_SIZES

/-- The zero-quantity / zero-price error message of the source. -/
def zeroQuantityMsg : String := "Quantity must be greater than zero"

/-- The zero-price error message of the source. -/
def zeroPriceMsg : String := "Price must be greater than zero"

/-- The "Timber with id=.. not found" message of `get_timber`/`add_sales`. -/
def timberNotFoundMsg (id : Nat) : String :=
  "Timber with id=" ++ toString id ++ " not found"

/-- The "Sales with id=.. not found" message of `get_sales`. -/
def salesNotFoundMsg (id : Nat) : String :=
  "Sales with id=" ++ toString id ++ " not found"

/-- Embeds `fn _get_timber(id: &u64) -> Option<Timber>`. -/
def _get_timber (s : State) (id : Nat) : Option Timber :=
  mapGet s.timbers id

/-- Embeds `fn _get_sales(id: &u64) -> Option<Sales>`. -/
def _get_sales (s : State) (id : Nat) : Option Sales :=
  mapGet s.sales id

/-- Embeds `fn get_timber(id: u64) -> Result<Timber, String>` (a query: no state
change, so only the result is returned). -/
def get_timber (s : State) (id : Nat) : Except String Timber :=
  match _get_timber s id with
  | some timber => Except.ok timber
  | none => Except.error (timberNotFoundMsg id)

/-- Embeds `fn get_sales(id: u64) -> Result<Sales, String>`. -/
def get_sales (s : State) (id : Nat) : Except String Sales :=
  match _get_sales s id with
  | some sales => Except.ok sales
  | none => Except.error (salesNotFoundMsg id)

/-- Embeds `fn do_insert_timber(timber: &Timber)`. -/
def do_insert_timber (timber : Timber) (s : State) : State :=
  { s with timbers := mapInsert timber.id timber s.timbers }

/-- Embeds `fn do_insert_sales(sales: &Sales)`. -/
def do_insert_sales (sales : Sales) (s : State) : State :=
  { s with sales := mapInsert sales.id sales s.sales }

/-- Embeds `fn add_timber(timber: TimberPayload) -> Result<Timber, String>`:
validates type, size and quantity in that order, then mints an id, stamps
`time()` (the `now` argument) and inserts. -/
def add_timber (s : State) (now : Nat) (p : TimberPayload) : Except String Timber × State :=
  if ¬ VALID_TIMBER_TYPES.contains p.timber_type then
    (Except.error (invalidTimberTypeMsg p.timber_type), s)
  else if ¬ VALID_TIMBER_SIZES.contains p.timber_size then
    (Except.error (invalidTimberSizeMsg p.timber_size), s)
  else if p.quantity = 0 then
    (Except.error zeroQuantityMsg, s)
  else
    let (id, s1) := generate_unique_id s
    let timber : Timber :=
      { id := id, timber_type := p.timber_type, timber_size := p.timber_size,
        quantity := p.quantity, created_at := now, updated_at := none }
    (Except.ok timber, do_insert_timber timber s1)

/-- Embeds `fn add_sales(sales: SalesPayload) -> Result<Sales, String>`: validates
quantity and price, checks that the referenced timber exists, then mints an
id and inserts. -/
def add_sales (s : State) (now : Nat) (p : SalesPayload) : Except String Sales × State :=
  if p.quantity = 0 then
    (Except.error zeroQuantityMsg, s)
  else if p.price = 0 then
    (Except.error zeroPriceMsg, s)
  else
    match _get_timber s p.timber_id with
    | none => (Except.error (timberNotFoundMsg p.timber_id), s)
    | some _ =>
      let (id, s1) := generate_unique_id s
      let sales : Sales :=
        { id := id, timber_id := p.timber_id, quantity := p.quantity,
          price := p.price, created_at := now, updated_at := none }
      (Except.ok sales, do_insert_sales sales s1)

/-- The `update_timber` not-found message. -/
def updateTimberNotFoundMsg (id : Nat) : String :=
  "Couldn't update timber with id=" ++ toString id ++ ". Timber not found"

/-- The `update_sales` not-found message. -/
def updateSalesNotFoundMsg (id : Nat) : String :=
  "Couldn't update sales with id=" ++ toString id ++ ". Sales not found"

/-- The `delete_timber` not-found message. -/
def deleteTimberNotFoundMsg (id : Nat) : String :=
  "Couldn't delete timber with id=" ++ toString id ++ ". Timber not found"

/-- The `delete_sales` not-found message. -/
def deleteSalesNotFoundMsg (id : Nat) : String :=
  "Couldn't delete sales with id=" ++ toString id ++ ". Sales not found"

/-- Embeds `fn update_timber(id: u64, payload: TimberUpdatePayload)`: validates the
payload, then looks the record up, replaces the mutable fields, stamps
`updated_at` with `time()` and re-inserts. -/
def update_timber (s : State) (now : Nat) (id : Nat) (payload : TimberUpdatePayload) :
    Except String Timber × State :=
  if ¬ VALID_TIMBER_TYPES.contains payload.timber_type then
    (Except.error (invalidTimberTypeMsg payload.timber_type), s)
  else if ¬ VALID_TIMBER_SIZES.contains payload.timber_size then
    (Except.error (invalidTimberSizeMsg payload.timber_size), s)
  else if payload.quantity = 0 then
    (Except.error zeroQuantityMsg, s)
  else
    match mapGet s.timbers id with
    | some timber =>
      let timber' : Timber :=
        { timber with timber_type := payload.timber_type,
                      timber_size := payload.timber_size,
                      quantity := payload.quantity,
                      updated_at := some now }
      (Except.ok timber', do_insert_timber timber' s)
    | none => (Except.error (updateTimberNotFoundMsg id), s)

/-- Embeds `fn update_sales(id: u64, payload: SalesUpdatePayload)`: validates
quantity and price, looks the sale up, replaces quantity/price, stamps
`updated_at` and re-inserts.  The referenced timber is not consulted. -/
def update_sales (s : State) (now : Nat) (id : Nat) (payload : SalesUpdatePayload) :
    Except String Sales × State :=
  if payload.quantity = 0 then
    (Except.error zeroQuantityMsg, s)
  else if payload.price = 0 then
    (Except.error zeroPriceMsg, s)
  else
    match mapGet s.sales id with
    | some sales =>
      let sales' : Sales :=
        { sales with quantity := payload.quantity,
                     price := payload.price,
                     updated_at := some now }
      (Except.ok sales', do_insert_sales sales' s)
    | none => (Except.error (updateSalesNotFoundMsg id), s)

/-- Embeds `fn delete_timber(id: u64) -> Result<Timber, String>`. -/
def delete_timber (s : State) (id : Nat) : Except String Timber × State :=
  match mapGet s.timbers id with
  | some timber => (Except.ok timber, { s with timbers := mapRemove id s.timbers })
  | none => (Except.error (deleteTimberNotFoundMsg id), s)

/-- Embeds `fn delete_sales(id: u64) -> Result<Sales, String>`. -/
def delete_sales (s : State) (id : Nat) : Except String Sales × State :=
  match mapGet s.sales id with
  | some sales => (Except.ok sales, { s with sales := mapRemove id s.sales })
  | none => (Except.error (deleteSalesNotFoundMsg id), s)

/-- Embeds `fn _get_timber_by_type_and_quantity(timber_type: &str, quantity: &u64)`:
linear scan over the timber map in iteration (ascending key) order. -/
def _get_timber_by_type_and_quantity (s : State) (timber_type : String) (quantity : Nat) :
    List Timber :=
  (s.timbers.filter
    (fun p => p.2.timber_type == timber_type && p.2.quantity == quantity)).map (·.2)

/-! ### Association-list map lemmas -/

theorem mapGet_mapInsert_self {α : Type} (id : Nat) (v : α) (m : List (Nat × α)) :
    mapGet (mapInsert id v m) id = some v := by
  induction m with
  | nil => simp [mapInsert, mapGet]
  | cons hd tl ih =>
    obtain ⟨k, w⟩ := hd
    rcases Nat.lt_trichotomy id k with h | h | h
    · simp [mapInsert, h, mapGet]
    · subst h
      simp [mapInsert, mapGet]
    · have h1 : ¬ id < k := Nat.lt_asymm h
      have h2 : id ≠ k := Nat.ne_of_gt h
      have h3 : k ≠ id := Nat.ne_of_lt h
      simp [mapInsert, h1, h2, mapGet, h3, ih]

theorem mapGet_eq_none_iff {α : Type} (m : List (Nat × α)) (id : Nat) :
    mapGet m id = none ↔ id ∉ m.map Prod.fst := by
  induction m with
  | nil => simp [mapGet]
  | cons hd tl ih =>
    obtain ⟨k, w⟩ := hd
    by_cases h : k = id
    · subst h
      simp [mapGet]
    · simp [mapGet, h, ih, Ne.symm h]

theorem mapGet_mapRemove_self {α : Type} (id : Nat) (m : List (Nat × α))
    (hnd : (m.map Prod.fst).Nodup) : mapGet (mapRemove id m) id = none := by
  induction m with
  | nil => simp [mapRemove, mapGet]
  | cons hd tl ih =>
    obtain ⟨k, w⟩ := hd
    simp only [List.map_cons, List.nodup_cons] at hnd
    by_cases h : k = id
    · subst h
      simp only [mapRemove, if_pos rfl]
      exact (mapGet_eq_none_iff tl k).mpr hnd.1
    · simp [mapRemove, h, mapGet, ih hnd.2]

theorem mapRemove_sublist {α : Type} (id : Nat) (m : List (Nat × α)) :
    (mapRemove id m).Sublist m := by
  induction m with
  | nil => simp [mapRemove]
  | cons hd tl ih =>
    obtain ⟨k, w⟩ := hd
    by_cases h : k = id
    · simp [mapRemove, h]
    · simpa [mapRemove, h] using ih

theorem mem_mapInsert {α : Type} (id : Nat) (v : α) (m : List (Nat × α)) (p : Nat × α)
    (hp : p ∈ mapInsert id v m) : p = (id, v) ∨ p ∈ m := by
  induction m with
  | nil => simpa [mapInsert] using hp
  | cons hd tl ih =>
    obtain ⟨k, w⟩ := hd
    by_cases h1 : id < k
    · simp only [mapInsert, if_pos h1, List.mem_cons] at hp
      rcases hp with h | h | h
      · exact Or.inl h
      · exact Or.inr (by simp [h])
      · exact Or.inr (List.mem_cons_of_mem _ h)
    · by_cases h2 : id = k
      · simp only [mapInsert, if_neg h1, if_pos h2, List.mem_cons] at hp
        rcases hp with h | h
        · exact Or.inl h
        · exact Or.inr (List.mem_cons_of_mem _ h)
      · simp only [mapInsert, if_neg h1, if_neg h2, List.mem_cons] at hp
        rcases hp with h | h
        · exact Or.inr (by simp [h])
        · rcases ih h with h' | h'
          · exact Or.inl h'
          · exact Or.inr (List.mem_cons_of_mem _ h')

/-! ### Claim theorems -/

/-- C1: for every valid payload (timber_type among the 5 valid types,
timber_size among the 15 valid sizes, quantity > 0), `add_timber` returns
`Ok` with the created record, and `get_timber` on the new record's id in
the post-state returns exactly that record (same id, type, size, quantity,
created_at, and `updated_at = none`). -/
theorem add_timber_get_timber_roundtrip (s : State) (now : Nat) (p : TimberPayload)
    (ht : p.timber_type ∈ VALID_TIMBER_TYPES)
    (hs : p.timber_size ∈ VALID_TIMBER_SIZES)
    (hq : 0 < p.quantity) :
    (add_timber s now p).1 = Except.ok
      { id := (s.counter + 1) % U64MOD, timber_type := p.timber_type,
        timber_size := p.timber_size, quantity := p.quantity,
        created_at := now, updated_at := none } ∧
    get_timber (add_timber s now p).2 ((s.counter + 1) % U64MOD) = Except.ok
      { id := (s.counter + 1) % U64MOD, timber_type := p.timber_type,
        timber_size := p.timber_size, quantity := p.quantity,
        created_at := now, updated_at := none } := by
  have ht' : VALID_TIMBER_TYPES.contains p.timber_type = true := List.elem_eq_true_of_mem ht
  have hs' : VALID_TIMBER_SIZES.contains p.timber_size = true := List.elem_eq_true_of_mem hs
  have hq' : ¬ p.quantity = 0 := Nat.pos_iff_ne_zero.mp hq
  constructor
  · simp [add_timber, ht, hs, ht', hs', hq', generate_unique_id, do_insert_timber]
  · simp [add_timber, ht, hs, ht', hs', hq', generate_unique_id, do_insert_timber,
      get_timber, _get_timber, mapGet_mapInsert_self]

/-- Witness for C1 at a concrete valid payload. -/
theorem add_timber_get_timber_roundtrip_witness :
    (add_timber initState 5 ⟨"oak", "2x4", 3⟩).1 = Except.ok
      { id := (initState.counter + 1) % U64MOD, timber_type := "oak",
        timber_size := "2x4", quantity := 3, created_at := 5, updated_at := none } ∧
    get_timber (add_timber initState 5 ⟨"oak", "2x4", 3⟩).2
        ((initState.counter + 1) % U64MOD) = Except.ok
      { id := (initState.counter + 1) % U64MOD, timber_type := "oak",
        timber_size := "2x4", quantity := 3, created_at := 5, updated_at := none } :=
  add_timber_get_timber_roundtrip initState 5 ⟨"oak", "2x4", 3⟩
    (by decide) (by decide) (by decide)

/-- Holds when `sub` occurs verbatim inside `s`: the message names the value. -/
def strContains (s sub : String) : Prop := ∃ a b, s = a ++ sub ++ b

theorem invalidTimberTypeMsg_names_value (t : String) :
    strContains (invalidTimberTypeMsg t) t :=
  ⟨"Invalid timber type: ", ". Valid types are: " ++ rustDebugList VALID_TIMBER_TYPES,
    by simp [invalidTimberTypeMsg, String.append_assoc]⟩

theorem invalidTimberTypeMsg_names_allowed (t : String) :
    strContains (invalidTimberTypeMsg t) (rustDebugList VALID_TIMBER_TYPES) :=
  ⟨"Invalid timber type: " ++ t ++ ". Valid types are: ", "",
    by simp [invalidTimberTypeMsg, String.append_empty]⟩

theorem invalidTimberSizeMsg_names_value (sz : String) :
    strContains (invalidTimberSizeMsg sz) sz :=
  ⟨"Invalid timber size: ", ". Valid sizes are: " ++ rustDebugList VALID_TIMBER_SIZES,
    by simp [invalidTimberSizeMsg, String.append_assoc]⟩

theorem invalidTimberSizeMsg_names_allowed (sz : String) :
    strContains (invalidTimberSizeMsg sz) (rustDebugList VALID_TIMBER_SIZES) :=
  ⟨"Invalid timber size: " ++ sz ++ ". Valid sizes are: ", "",
    by simp [invalidTimberSizeMsg, String.append_empty]⟩

theorem timberNotFoundMsg_names_id (id : Nat) :
    strContains (timberNotFoundMsg id) (toString id) :=
  ⟨"Timber with id=", " not found", by simp [timberNotFoundMsg, String.append_assoc]⟩

/-- C3: for every payload with an invalid timber_type, an invalid
timber_size, or zero quantity, `add_timber` leaves the entire state (timber
map, sales map, id counter) unchanged and returns an error: for an invalid
type, the type message (naming the value and the allowed set); for a valid
type but invalid size, the size message (naming the value and the allowed
set); for valid enumerations but zero quantity, the zero-quantity message. -/
theorem add_timber_invalid_rejected (s : State) (now : Nat) (p : TimberPayload)
    (h : p.timber_type ∉ VALID_TIMBER_TYPES ∨ p.timber_size ∉ VALID_TIMBER_SIZES ∨
      p.quantity = 0) :
    (add_timber s now p).2 = s ∧
    (p.timber_type ∉ VALID_TIMBER_TYPES →
      (add_timber s now p).1 = Except.error (invalidTimberTypeMsg p.timber_type) ∧
      strContains (invalidTimberTypeMsg p.timber_type) p.timber_type ∧
      strContains (invalidTimberTypeMsg p.timber_type) (rustDebugList VALID_TIMBER_TYPES)) ∧
    (p.timber_type ∈ VALID_TIMBER_TYPES → p.timber_size ∉ VALID_TIMBER_SIZES →
      (add_timber s now p).1 = Except.error (invalidTimberSizeMsg p.timber_size) ∧
      strContains (invalidTimberSizeMsg p.timber_size) p.timber_size ∧
      strContains (invalidTimberSizeMsg p.timber_size) (rustDebugList VALID_TIMBER_SIZES)) ∧
    (p.timber_type ∈ VALID_TIMBER_TYPES → p.timber_size ∈ VALID_TIMBER_SIZES →
      p.quantity = 0 →
      (add_timber s now p).1 = Except.error zeroQuantityMsg) := by
  refine ⟨?_, ?_, ?_, ?_⟩
  · by_cases h1 : p.timber_type ∈ VALID_TIMBER_TYPES
    · by_cases h2 : p.timber_size ∈ VALID_TIMBER_SIZES
      · have h3 : p.quantity = 0 := by tauto
        simp [add_timber, h1, h2, h3]
      · simp [add_timber, h1, h2]
    · simp [add_timber, h1]
  · intro h1
    exact ⟨by simp [add_timber, h1], invalidTimberTypeMsg_names_value _,
      invalidTimberTypeMsg_names_allowed _⟩
  · intro h1 h2
    exact ⟨by simp [add_timber, h1, h2], invalidTimberSizeMsg_names_value _,
      invalidTimberSizeMsg_names_allowed _⟩
  · intro h1 h2 h3
    simp [add_timber, h1, h2, h3]

/-- Witness for C3 at the spec's example payload (category "bamboo"). -/
theorem add_timber_invalid_rejected_witness :
    (add_timber initState 0 ⟨"bamboo", "2x4", 1⟩).2 = initState ∧
    (("bamboo" : String) ∉ VALID_TIMBER_TYPES →
      (add_timber initState 0 ⟨"bamboo", "2x4", 1⟩).1 =
        Except.error (invalidTimberTypeMsg "bamboo") ∧
      strContains (invalidTimberTypeMsg "bamboo") "bamboo" ∧
      strContains (invalidTimberTypeMsg "bamboo") (rustDebugList VALID_TIMBER_TYPES)) ∧
    (("bamboo" : String) ∈ VALID_TIMBER_TYPES → ("2x4" : String) ∉ VALID_TIMBER_SIZES →
      (add_timber initState 0 ⟨"bamboo", "2x4", 1⟩).1 =
        Except.error (invalidTimberSizeMsg "2x4") ∧
      strContains (invalidTimberSizeMsg "2x4") "2x4" ∧
      strContains (invalidTimberSizeMsg "2x4") (rustDebugList VALID_TIMBER_SIZES)) ∧
    (("bamboo" : String) ∈ VALID_TIMBER_TYPES → ("2x4" : String) ∈ VALID_TIMBER_SIZES →
      (1 : Nat) = 0 →
      (add_timber initState 0 ⟨"bamboo", "2x4", 1⟩).1 = Except.error zeroQuantityMsg) :=
  add_timber_invalid_rejected initState 0 ⟨"bamboo", "2x4", 1⟩ (Or.inl (by decide))

/-- C4: for every sale payload with positive quantity and price whose
timber_id is absent from the timber map, `add_sales` returns the not-found
error naming that timber_id and leaves the state (so the sales map and the
id counter) unchanged. -/
theorem add_sales_missing_timber_rejected (s : State) (now : Nat) (p : SalesPayload)
    (hq : 0 < p.quantity) (hp : 0 < p.price)
    (habs : _get_timber s p.timber_id = none) :
    add_sales s now p = (Except.error (timberNotFoundMsg p.timber_id), s) ∧
    strContains (timberNotFoundMsg p.timber_id) (toString p.timber_id) := by
  have hq' : ¬ p.quantity = 0 := Nat.pos_iff_ne_zero.mp hq
  have hp' : ¬ p.price = 0 := Nat.pos_iff_ne_zero.mp hp
  exact ⟨by simp [add_sales, hq', hp', habs], timberNotFoundMsg_names_id _⟩

/-- Witness for C4 at the spec's example (timber_id 9999, never created). -/
theorem add_sales_missing_timber_rejected_witness :
    add_sales initState 0 ⟨9999, 1, 1⟩ = (Except.error (timberNotFoundMsg 9999), initState) ∧
    strContains (timberNotFoundMsg 9999) (toString (9999 : Nat)) :=
  add_sales_missing_timber_rejected initState 0 ⟨9999, 1, 1⟩ (by decide) (by decide) rfl

/-- A concrete stored timber record used to instantiate witnesses. -/
def wTimber1 : Timber :=
  { id := 1, timber_type := "pine", timber_size := "2x4", quantity := 4,
    created_at := 10, updated_at := none }

/-- A concrete stored sale record used to instantiate witnesses. -/
def wSales2 : Sales :=
  { id := 2, timber_id := 1, quantity := 3, price := 50,
    created_at := 11, updated_at := none }

/-- A concrete reachable-looking state used to instantiate witnesses. -/
def wState : State :=
  { counter := 2, timbers := [(1, wTimber1)], sales := [(2, wSales2)] }

/-- A concrete state with an empty timber map and one dangling sale
(its timber_id refers to no stored timber). -/
def wDanglingState : State :=
  { counter := 2, timbers := [], sales := [(2, wSales2)] }

/-- C5: for every state, every id present in the timber map and every
valid payload, `update_timber` returns `Ok` with the stored record's id and
created_at preserved, the mutable fields replaced by the payload values and
`updated_at` stamped to the current time, and re-inserts it; independently,
for every state and every id present in the sales map, `update_sales`
behaves the same on the sales map, additionally leaving the stored
timber_id unchanged, never touching the timber map, and never re-checking
the referenced timber's existence (its result is the same for every
timber-map contents, including an empty one). -/
theorem update_timber_update_sales_ok :
    (∀ (s : State) (now id : Nat) (tp : TimberUpdatePayload) (t0 : Timber),
      mapGet s.timbers id = some t0 →
      tp.timber_type ∈ VALID_TIMBER_TYPES →
      tp.timber_size ∈ VALID_TIMBER_SIZES →
      0 < tp.quantity →
      update_timber s now id tp =
        (Except.ok { t0 with timber_type := tp.timber_type, timber_size := tp.timber_size,
                             quantity := tp.quantity, updated_at := some now },
         do_insert_timber
           { t0 with timber_type := tp.timber_type, timber_size := tp.timber_size,
                     quantity := tp.quantity, updated_at := some now } s)) ∧
    (∀ (s : State) (now id : Nat) (sp : SalesUpdatePayload) (s0 : Sales),
      mapGet s.sales id = some s0 →
      0 < sp.quantity → 0 < sp.price →
      update_sales s now id sp =
        (Except.ok { s0 with quantity := sp.quantity, price := sp.price,
                             updated_at := some now },
         do_insert_sales
           { s0 with quantity := sp.quantity, price := sp.price,
                     updated_at := some now } s) ∧
      (update_sales s now id sp).2.timbers = s.timbers ∧
      (∀ m : List (Nat × Timber),
        (update_sales { s with timbers := m } now id sp).1 =
          (update_sales s now id sp).1)) := by
  constructor
  · intro s now id tp t0 hgt hty hsz hq
    have hq' : ¬ tp.quantity = 0 := Nat.pos_iff_ne_zero.mp hq
    simp [update_timber, hty, hsz, hq', hgt]
  · intro s now id sp s0 hgs hq2 hp2
    have hq2' : ¬ sp.quantity = 0 := Nat.pos_iff_ne_zero.mp hq2
    have hp2' : ¬ sp.price = 0 := Nat.pos_iff_ne_zero.mp hp2
    refine ⟨?_, ?_, ?_⟩
    · simp [update_sales, hq2', hp2', hgs]
    · simp [update_sales, hq2', hp2', hgs, do_insert_sales]
    · intro m
      simp [update_sales, hq2', hp2', hgs]

/-- Witness for C5: the timber half at a state whose sales map plays no
role, and the sales half at a state with an empty timber map and a dangling
sale (the case where existence of the referenced timber cannot hold). -/
theorem update_timber_update_sales_ok_witness :
    update_timber wState 100 1 ⟨1, "oak", "4x4", 5⟩ =
      (Except.ok { wTimber1 with timber_type := "oak", timber_size := "4x4",
                                 quantity := 5, updated_at := some 100 },
       do_insert_timber
         { wTimber1 with timber_type := "oak", timber_size := "4x4",
                         quantity := 5, updated_at := some 100 } wState) ∧
    (update_sales wDanglingState 100 2 ⟨2, 7, 9⟩ =
      (Except.ok { wSales2 with quantity := 7, price := 9, updated_at := some 100 },
       do_insert_sales
         { wSales2 with quantity := 7, price := 9, updated_at := some 100 } wDanglingState) ∧
     (update_sales wDanglingState 100 2 ⟨2, 7, 9⟩).2.timbers = wDanglingState.timbers ∧
     (∀ m : List (Nat × Timber),
       (update_sales { wDanglingState with timbers := m } 100 2 ⟨2, 7, 9⟩).1 =
         (update_sales wDanglingState 100 2 ⟨2, 7, 9⟩).1)) :=
  ⟨update_timber_update_sales_ok.1 wState 100 1 ⟨1, "oak", "4x4", 5⟩ wTimber1
     rfl (by decide) (by decide) (by decide),
   update_timber_update_sales_ok.2 wDanglingState 100 2 ⟨2, 7, 9⟩ wSales2
     rfl (by decide) (by decide)⟩

/-- C6: for every state and every id, `delete_timber` (resp. `delete_sales`)
on a present id returns the stored record and removes exactly that entry,
and on an absent id returns the not-found error with the state unchanged —
each case under only its own hypothesis, so the absent-id case covers
arbitrary states including empty maps; consequently (keys being
duplicate-free) deleting a present id twice yields success then the
not-found error. -/
theorem delete_timber_delete_sales_spec :
    (∀ (s : State) (id : Nat) (t0 : Timber), mapGet s.timbers id = some t0 →
      delete_timber s id = (Except.ok t0, { s with timbers := mapRemove id s.timbers })) ∧
    (∀ (s : State) (id : Nat), mapGet s.timbers id = none →
      delete_timber s id = (Except.error (deleteTimberNotFoundMsg id), s)) ∧
    (∀ (s : State) (id : Nat) (s0 : Sales), mapGet s.sales id = some s0 →
      delete_sales s id = (Except.ok s0, { s with sales := mapRemove id s.sales })) ∧
    (∀ (s : State) (id : Nat), mapGet s.sales id = none →
      delete_sales s id = (Except.error (deleteSalesNotFoundMsg id), s)) ∧
    (∀ (s : State) (id : Nat) (t0 : Timber), mapGet s.timbers id = some t0 →
      (s.timbers.map Prod.fst).Nodup →
      delete_timber (delete_timber s id).2 id =
        (Except.error (deleteTimberNotFoundMsg id), (delete_timber s id).2)) ∧
    (∀ (s : State) (id : Nat) (s0 : Sales), mapGet s.sales id = some s0 →
      (s.sales.map Prod.fst).Nodup →
      delete_sales (delete_sales s id).2 id =
        (Except.error (deleteSalesNotFoundMsg id), (delete_sales s id).2)) := by
  refine ⟨?_, ?_, ?_, ?_, ?_, ?_⟩
  · intro s id t0 hP
    simp [delete_timber, hP]
  · intro s id hA
    simp [delete_timber, hA]
  · intro s id s0 hPS
    simp [delete_sales, hPS]
  · intro s id hAS
    simp [delete_sales, hAS]
  · intro s id t0 hP hnd
    have h2 : mapGet (mapRemove id s.timbers) id = none :=
      mapGet_mapRemove_self id s.timbers hnd
    simp [delete_timber, hP, h2]
  · intro s id s0 hPS hnds
    have h2 : mapGet (mapRemove id s.sales) id = none :=
      mapGet_mapRemove_self id s.sales hnds
    simp [delete_sales, hPS, h2]

/-- Witness for C6: present-id deletes and double deletes at a populated
state, absent-id deletes at the empty initial state. -/
theorem delete_timber_delete_sales_spec_witness :
    delete_timber wState 1 = (Except.ok wTimber1,
      { wState with timbers := mapRemove 1 wState.timbers }) ∧
    delete_timber initState 5 = (Except.error (deleteTimberNotFoundMsg 5), initState) ∧
    delete_sales wState 2 = (Except.ok wSales2,
      { wState with sales := mapRemove 2 wState.sales }) ∧
    delete_sales initState 7 = (Except.error (deleteSalesNotFoundMsg 7), initState) ∧
    delete_timber (delete_timber wState 1).2 1 =
      (Except.error (deleteTimberNotFoundMsg 1), (delete_timber wState 1).2) ∧
    delete_sales (delete_sales wState 2).2 2 =
      (Except.error (deleteSalesNotFoundMsg 2), (delete_sales wState 2).2) :=
  ⟨delete_timber_delete_sales_spec.1 wState 1 wTimber1 rfl,
   delete_timber_delete_sales_spec.2.1 initState 5 rfl,
   delete_timber_delete_sales_spec.2.2.1 wState 2 wSales2 rfl,
   delete_timber_delete_sales_spec.2.2.2.1 initState 7 rfl,
   delete_timber_delete_sales_spec.2.2.2.2.1 wState 1 wTimber1 rfl (by decide),
   delete_timber_delete_sales_spec.2.2.2.2.2 wState 2 wSales2 rfl (by decide)⟩

/-- On every path, `add_sales` leaves the timber map exactly as it was. -/
theorem add_sales_timbers_unchanged (s : State) (now : Nat) (p : SalesPayload) :
    (add_sales s now p).2.timbers = s.timbers := by
  unfold add_sales
  by_cases h1 : p.quantity = 0
  · simp [h1]
  · by_cases h2 : p.price = 0
    · simp [h1, h2]
    · cases h3 : _get_timber s p.timber_id <;>
        simp [h1, h2, h3, generate_unique_id, do_insert_sales]

/-- C10: a successful `add_sales` call leaves the timber map entirely
unchanged — no decrement, reservation or other modification of the
referenced inventory item or any other timber record. -/
theorem add_sales_ok_timber_map_frame (s : State) (now : Nat) (p : SalesPayload)
    (sl : Sales) (_h : (add_sales s now p).1 = Except.ok sl) :
    (add_sales s now p).2.timbers = s.timbers :=
  add_sales_timbers_unchanged s now p

/-- Witness for C10 at a concrete successful sale creation. -/
theorem add_sales_ok_timber_map_frame_witness :
    (add_sales wState 12 ⟨1, 2, 5⟩).1 =
      Except.ok { id := 3, timber_id := 1, quantity := 2, price := 5,
                  created_at := 12, updated_at := none } ∧
    (add_sales wState 12 ⟨1, 2, 5⟩).2.timbers = wState.timbers :=
  ⟨rfl,
   add_sales_ok_timber_map_frame wState 12 ⟨1, 2, 5⟩
     { id := 3, timber_id := 1, quantity := 2, price := 5,
       created_at := 12, updated_at := none } rfl⟩

/-- C9: `generate_unique_id` sets the counter cell to its prior value plus
one in `u64` (mod `2^64`) arithmetic and returns that value; the returned
id exceeds the prior counter value exactly when the prior value is below
`u64::MAX = 2^64 - 1`, and at `u64::MAX` the increment wraps to 0. -/
theorem generate_unique_id_spec (s : State) (hc : s.counter < U64MOD) :
    (generate_unique_id s).1 = (s.counter + 1) % U64MOD ∧
    (generate_unique_id s).2 = { s with counter := (s.counter + 1) % U64MOD } ∧
    (s.counter < U64MOD - 1 →
      (generate_unique_id s).1 = s.counter + 1 ∧ s.counter < (generate_unique_id s).1) ∧
    (s.counter = U64MOD - 1 → (generate_unique_id s).1 = 0) ∧
    (¬ s.counter < U64MOD - 1 → ¬ s.counter < (generate_unique_id s).1) := by
  refine ⟨rfl, rfl, ?_, ?_, ?_⟩
  · intro h
    have he : (s.counter + 1) % U64MOD = s.counter + 1 := by
      simp only [U64MOD] at h ⊢
      omega
    exact ⟨he, by simp [generate_unique_id, he]⟩
  · intro h
    simp only [generate_unique_id, h, U64MOD]
    norm_num
  · intro h
    have he : s.counter = U64MOD - 1 := by
      simp only [U64MOD] at h hc ⊢
      omega
    simp only [generate_unique_id, he, U64MOD]
    norm_num

/-- Witness for C9 at the wrap point: counter `u64::MAX` yields id 0. -/
theorem generate_unique_id_spec_witness :
    (generate_unique_id { counter := U64MOD - 1, timbers := [], sales := [] }).1 = 0 :=
  (generate_unique_id_spec { counter := U64MOD - 1, timbers := [], sales := [] }
    (by simp [U64MOD])).2.2.2.1 rfl

/-! ### The reachable-state invariant (C7) -/

/-- One exposed mutating operation together with its arguments and the
`time()` value observed during it. -/
inductive Op where
  | addTimber (now : Nat) (p : TimberPayload)
  | addSales (now : Nat) (p : SalesPayload)
  | updTimber (now : Nat) (id : Nat) (p : TimberUpdatePayload)
  | updSales (now : Nat) (id : Nat) (p : SalesUpdatePayload)
  | delTimber (id : Nat)
  | delSales (id : Nat)
deriving DecidableEq, Repr

/-- The state transition of one exposed operation. -/
def applyOp (s : State) : Op → State
  | .addTimber now p => (add_timber s now p).2
  | .addSales now p => (add_sales s now p).2
  | .updTimber now id p => (update_timber s now id p).2
  | .updSales now id p => (update_sales s now id p).2
  | .delTimber id => (delete_timber s id).2
  | .delSales id => (delete_sales s id).2

/-- Running a sequence of exposed operations. -/
def runOps (s : State) : List Op → State
  | [] => s
  | o :: rest => runOps (applyOp s o) rest

/-- The domain invariant of a stored timber record: enumerated type and
size, nonzero quantity. -/
def validTimber (t : Timber) : Prop :=
  t.timber_type ∈ VALID_TIMBER_TYPES ∧ t.timber_size ∈ VALID_TIMBER_SIZES ∧ 0 < t.quantity

instance validTimber.dec (t : Timber) : Decidable (validTimber t) := by
  unfold validTimber
  infer_instance

/-- Every record stored in the timber map satisfies `validTimber`. -/
def timberInv (s : State) : Prop := ∀ p ∈ s.timbers, validTimber p.2

instance timberInv.dec (s : State) : Decidable (timberInv s) := by
  unfold timberInv
  infer_instance

theorem timberInv_of_timbers_eq {s s' : State} (he : s'.timbers = s.timbers)
    (h : timberInv s) : timberInv s' := by
  intro q hq
  rw [he] at hq
  exact h q hq

theorem timberInv_add_timber (s : State) (now : Nat) (p : TimberPayload)
    (h : timberInv s) : timberInv (add_timber s now p).2 := by
  by_cases h1 : p.timber_type ∈ VALID_TIMBER_TYPES
  · by_cases h2 : p.timber_size ∈ VALID_TIMBER_SIZES
    · by_cases h3 : p.quantity = 0
      · simpa [add_timber, h1, h2, h3] using h
      · intro q hq
        have hq' : q ∈ mapInsert ((s.counter + 1) % U64MOD)
            { id := (s.counter + 1) % U64MOD, timber_type := p.timber_type,
              timber_size := p.timber_size, quantity := p.quantity,
              created_at := now, updated_at := none } s.timbers := by
          simpa [add_timber, h1, h2, h3, generate_unique_id, do_insert_timber] using hq
        rcases mem_mapInsert _ _ _ _ hq' with h' | h'
        · rw [h']
          exact ⟨h1, h2, Nat.pos_of_ne_zero h3⟩
        · exact h _ h'
    · simpa [add_timber, h1, h2] using h
  · simpa [add_timber, h1] using h

theorem update_sales_timbers_unchanged (s : State) (now id : Nat) (p : SalesUpdatePayload) :
    (update_sales s now id p).2.timbers = s.timbers := by
  unfold update_sales
  by_cases h1 : p.quantity = 0
  · simp [h1]
  · by_cases h2 : p.price = 0
    · simp [h1, h2]
    · cases h3 : mapGet s.sales id <;> simp [h1, h2, h3, do_insert_sales]

theorem delete_sales_timbers_unchanged (s : State) (id : Nat) :
    (delete_sales s id).2.timbers = s.timbers := by
  unfold delete_sales
  cases h : mapGet s.sales id <;> simp [h]

theorem timberInv_update_timber (s : State) (now id : Nat) (p : TimberUpdatePayload)
    (h : timberInv s) : timberInv (update_timber s now id p).2 := by
  by_cases h1 : p.timber_type ∈ VALID_TIMBER_TYPES
  · by_cases h2 : p.timber_size ∈ VALID_TIMBER_SIZES
    · by_cases h3 : p.quantity = 0
      · simpa [update_timber, h1, h2, h3] using h
      · cases hget : mapGet s.timbers id with
        | none => simpa [update_timber, h1, h2, h3, hget] using h
        | some t0 =>
          intro q hq
          simp only [update_timber, h1, h2, h3, hget, do_insert_timber] at hq
          rcases mem_mapInsert _ _ _ _ (by simpa [h1, h2, h3] using hq) with h' | h'
          · rw [h']
            exact ⟨h1, h2, Nat.pos_of_ne_zero h3⟩
          · exact h _ h'
    · simpa [update_timber, h1, h2] using h
  · simpa [update_timber, h1] using h

theorem timberInv_delete_timber (s : State) (id : Nat)
    (h : timberInv s) : timberInv (delete_timber s id).2 := by
  unfold delete_timber
  cases hget : mapGet s.timbers id with
  | none => simpa [hget] using h
  | some t0 =>
    intro q hq
    simp only [hget] at hq
    exact h q ((mapRemove_sublist id s.timbers).subset hq)

theorem timberInv_applyOp (s : State) (o : Op) (h : timberInv s) :
    timberInv (applyOp s o) := by
  cases o with
  | addTimber now p => exact timberInv_add_timber s now p h
  | addSales now p =>
    exact timberInv_of_timbers_eq (add_sales_timbers_unchanged s now p) h
  | updTimber now id p => exact timberInv_update_timber s now id p h
  | updSales now id p =>
    exact timberInv_of_timbers_eq (update_sales_timbers_unchanged s now id p) h
  | delTimber id => exact timberInv_delete_timber s id h
  | delSales id =>
    exact timberInv_of_timbers_eq (delete_sales_timbers_unchanged s id) h

theorem timberInv_runOps (s : State) (ops : List Op) (h : timberInv s) :
    timberInv (runOps s ops) := by
  induction ops generalizing s with
  | nil => exact h
  | cons o rest ih => exact ih (applyOp s o) (timberInv_applyOp s o h)

/-- C7: every timber record reachable through any sequence of exposed
operations from the installation state has a valid type, a valid size and
positive quantity, and every exposed operation preserves this invariant. -/
theorem timber_invariant_reachable :
    (∀ (s : State) (o : Op), timberInv s → timberInv (applyOp s o)) ∧
    (∀ ops : List Op, timberInv (runOps initState ops)) :=
  ⟨timberInv_applyOp,
   fun ops => timberInv_runOps initState ops (by intro q hq; simp [initState] at hq)⟩

/-- Witness for C7: the preservation half applied at a concrete state and
operation. -/
theorem timber_invariant_reachable_witness :
    timberInv (applyOp wState (Op.delTimber 1)) :=
  timber_invariant_reachable.1 wState (Op.delTimber 1) (by decide)

/-! ### The conjunction query (C8) -/

/-- The spec's query example: oak 2x4, quantity 5, id 1. -/
def exOakA : Timber :=
  { id := 1, timber_type := "oak", timber_size := "2x4", quantity := 5,
    created_at := 0, updated_at := none }

/-- The spec's query example: oak 4x4, quantity 5, id 2. -/
def exOakB : Timber :=
  { id := 2, timber_type := "oak", timber_size := "4x4", quantity := 5,
    created_at := 0, updated_at := none }

/-- The spec's query example: pine 2x4, quantity 5, id 3. -/
def exPineC : Timber :=
  { id := 3, timber_type := "pine", timber_size := "2x4", quantity := 5,
    created_at := 0, updated_at := none }

/-- The spec's query-example state with the three items above. -/
def exQueryState : State :=
  { counter := 3, timbers := [(1, exOakA), (2, exOakB), (3, exPineC)], sales := [] }

/-- C8: on a timber map with strictly ascending keys each storing a record
whose id equals its key (as the stable map maintains), the type-and-quantity
query returns exactly the stored records whose timber_type and quantity
both equal the given values, and the returned records' ids are strictly
ascending. -/
theorem get_timber_by_type_and_quantity_spec (s : State) (ty : String) (q : Nat)
    (hsorted : List.Pairwise (· < ·) (s.timbers.map Prod.fst))
    (hids : ∀ p ∈ s.timbers, Timber.id p.2 = p.1) :
    (∀ t : Timber, t ∈ _get_timber_by_type_and_quantity s ty q ↔
      ((∃ k, (k, t) ∈ s.timbers) ∧ t.timber_type = ty ∧ t.quantity = q)) ∧
    List.Pairwise (· < ·) ((_get_timber_by_type_and_quantity s ty q).map Timber.id) := by
  constructor
  · intro t
    simp only [_get_timber_by_type_and_quantity, List.mem_map, List.mem_filter,
      Bool.and_eq_true, beq_iff_eq]
    constructor
    · rintro ⟨⟨k, t'⟩, ⟨hmem, hty, hq⟩, rfl⟩
      exact ⟨⟨k, hmem⟩, hty, hq⟩
    · rintro ⟨⟨k, hmem⟩, hty, hq⟩
      exact ⟨(k, t), ⟨hmem, hty, hq⟩, rfl⟩
  · have hsub : (s.timbers.filter
        (fun p => p.2.timber_type == ty && p.2.quantity == q)).Sublist s.timbers :=
      List.filter_sublist s.timbers
    have h2 : (_get_timber_by_type_and_quantity s ty q).map Timber.id =
        (s.timbers.filter
          (fun p => p.2.timber_type == ty && p.2.quantity == q)).map Prod.fst := by
      rw [_get_timber_by_type_and_quantity, List.map_map]
      exact List.map_congr_left (fun p hp => hids p (hsub.subset hp))
    rw [h2]
    exact List.Pairwise.sublist (hsub.map Prod.fst) hsorted

/-- Witness for C8: the theorem at the spec's three-item example, together
with the evaluated query result (exactly the two oak items, ascending). -/
theorem get_timber_by_type_and_quantity_spec_witness :
    ((∀ t : Timber, t ∈ _get_timber_by_type_and_quantity exQueryState "oak" 5 ↔
      ((∃ k, (k, t) ∈ exQueryState.timbers) ∧ t.timber_type = "oak" ∧ t.quantity = 5)) ∧
     List.Pairwise (· < ·)
       ((_get_timber_by_type_and_quantity exQueryState "oak" 5).map Timber.id)) ∧
    _get_timber_by_type_and_quantity exQueryState "oak" 5 = [exOakA, exOakB] :=
  ⟨get_timber_by_type_and_quantity_spec exQueryState "oak" 5 (by decide) (by decide), rfl⟩

/-! ### Sequences of creates and the shared id counter (C2) -/

/-- One create request: either kind, with the `time()` value observed. -/
inductive COp where
  | timber (now : Nat) (p : TimberPayload)
  | sale (now : Nat) (p : SalesPayload)
deriving DecidableEq, Repr

/-- Run one create; the first component is `some id` exactly when the
create succeeded. -/
def runCOp (s : State) : COp → Option Nat × State
  | .timber now p =>
    match add_timber s now p with
    | (Except.ok t, s') => (some t.id, s')
    | (Except.error _, s') => (none, s')
  | .sale now p =>
    match add_sales s now p with
    | (Except.ok sl, s') => (some sl.id, s')
    | (Except.error _, s') => (none, s')

/-- Run a sequence of create requests, collecting the ids returned by the
successful ones in execution order. -/
def runCreates (s : State) : List COp → List Nat × State
  | [] => ([], s)
  | o :: rest =>
    let r := runCOp s o
    let rest' := runCreates r.2 rest
    (match r.1 with
     | some id => id :: rest'.1
     | none => rest'.1, rest'.2)

/-- A create either fails leaving the state untouched, or returns the
freshly minted id and leaves the counter at that id. -/
theorem runCOp_cases (s : State) (o : COp) :
    ((runCOp s o).1 = none ∧ (runCOp s o).2 = s) ∨
    ((runCOp s o).1 = some ((s.counter + 1) % U64MOD) ∧
     (runCOp s o).2.counter = (s.counter + 1) % U64MOD) := by
  cases o with
  | timber now p =>
    by_cases h1 : p.timber_type ∈ VALID_TIMBER_TYPES
    · by_cases h2 : p.timber_size ∈ VALID_TIMBER_SIZES
      · by_cases h3 : p.quantity = 0
        · left
          simp [runCOp, add_timber, h1, h2, h3]
        · right
          simp [runCOp, add_timber, h1, h2, h3, generate_unique_id, do_insert_timber]
      · left
        simp [runCOp, add_timber, h1, h2]
    · left
      simp [runCOp, add_timber, h1]
  | sale now p =>
    by_cases h1 : p.quantity = 0
    · left
      simp [runCOp, add_sales, h1]
    · by_cases h2 : p.price = 0
      · left
        simp [runCOp, add_sales, h1, h2]
      · cases h3 : _get_timber s p.timber_id with
        | none =>
          left
          simp [runCOp, add_sales, h1, h2, h3]
        | some t =>
          right
          simp [runCOp, add_sales, h1, h2, h3, generate_unique_id, do_insert_sales]

/-- As long as the counter does not wrap, the successful ids of a create
sequence are the consecutive integers starting right after the initial
counter, and the final counter is the initial one plus the number of
successes. -/
theorem runCreates_ids (ops : List COp) (s : State)
    (hlen : s.counter + (runCreates s ops).1.length < U64MOD) :
    (runCreates s ops).1 = List.range' (s.counter + 1) (runCreates s ops).1.length ∧
    (runCreates s ops).2.counter = s.counter + (runCreates s ops).1.length := by
  induction ops generalizing s with
  | nil => simp [runCreates]
  | cons o rest ih =>
    rcases runCOp_cases s o with ⟨h1, h2⟩ | ⟨h1, h2⟩
    · have hred : runCreates s (o :: rest) = runCreates s rest := by
        simp [runCreates, h1, h2]
      rw [hred] at hlen ⊢
      exact ih s hlen
    · have hred : (runCreates s (o :: rest)).1 =
          (s.counter + 1) % U64MOD :: (runCreates (runCOp s o).2 rest).1 ∧
          (runCreates s (o :: rest)).2 = (runCreates (runCOp s o).2 rest).2 := by
        simp [runCreates, h1]
      have hlen1 : (runCreates s (o :: rest)).1.length =
          (runCreates (runCOp s o).2 rest).1.length + 1 := by
        simp [hred.1]
      have hmod : (s.counter + 1) % U64MOD = s.counter + 1 := by
        have : s.counter + 1 < U64MOD := by omega
        exact Nat.mod_eq_of_lt this
      have hc1 : (runCOp s o).2.counter = s.counter + 1 := by rw [h2, hmod]
      have hih := ih (runCOp s o).2 (by rw [hc1]; omega)
      rw [hc1] at hih
      constructor
      · rw [hred.1]
        simp only [List.length_cons]
        rw [hmod, hih.1, List.range'_succ]
        simp [List.length_range']
      · rw [hred.2, hih.2, hlen1]
        omega

/-- A create with the fixed valid payload (pine 2x4, quantity 1) always
succeeds, so a replicated list of it yields one id per element: the
successive counter values mod `2^64`. -/
theorem runCreates_replicate_valid (n : Nat) (s : State) :
    (runCreates s (List.replicate n (COp.timber 0 ⟨"pine", "2x4", 1⟩))).1 =
      (List.range n).map (fun i => (s.counter + 1 + i) % U64MOD) := by
  induction n generalizing s with
  | zero => simp [runCreates]
  | succ n ih =>
    have hok : runCOp s (COp.timber 0 ⟨"pine", "2x4", 1⟩) =
        (some ((s.counter + 1) % U64MOD),
         do_insert_timber
           { id := (s.counter + 1) % U64MOD, timber_type := "pine", timber_size := "2x4",
             quantity := 1, created_at := 0, updated_at := none }
           { s with counter := (s.counter + 1) % U64MOD }) := by
      have hm : ("pine" : String) ∈ VALID_TIMBER_TYPES := by decide
      have hz : ("2x4" : String) ∈ VALID_TIMBER_SIZES := by decide
      simp [runCOp, add_timber, generate_unique_id, hm, hz]
    rw [List.replicate_succ]
    have hred : (runCreates s
        (COp.timber 0 ⟨"pine", "2x4", 1⟩ ::
          List.replicate n (COp.timber 0 ⟨"pine", "2x4", 1⟩))).1 =
        (s.counter + 1) % U64MOD ::
          (runCreates (runCOp s (COp.timber 0 ⟨"pine", "2x4", 1⟩)).2
            (List.replicate n (COp.timber 0 ⟨"pine", "2x4", 1⟩))).1 := by
      simp [runCreates, hok]
    rw [hred, ih, List.range_succ_eq_map, List.map_cons, List.map_map]
    have hc : (runCOp s (COp.timber 0 ⟨"pine", "2x4", 1⟩)).2.counter =
        (s.counter + 1) % U64MOD := by
      rw [hok]
      simp [do_insert_timber]
    rw [hc]
    refine congrArg₂ _ rfl (List.map_congr_left ?_)
    intro i hi
    show ((s.counter + 1) % U64MOD + 1 + i) % U64MOD = (s.counter + 1 + Nat.succ i) % U64MOD
    simp only [U64MOD, Nat.succ_eq_add_one]
    omega

/-- C2 counterexample: after `2^64` successful creates from the initial
state the id counter wraps, so the returned ids of that concrete create
sequence are not strictly increasing (the claim quantifies over every
sequence of successful creates, with no bound on its length). -/
theorem creates_wraparound_counterexample :
    ¬ List.Pairwise (· < ·)
      (runCreates initState (List.replicate U64MOD (COp.timber 0 ⟨"pine", "2x4", 1⟩))).1 := by
  intro hpw
  rw [runCreates_replicate_valid] at hpw
  have hlen : ((List.range U64MOD).map
      (fun i => (initState.counter + 1 + i) % U64MOD)).length = U64MOD := by
    simp
  have hij : (⟨0, by rw [hlen]; norm_num [U64MOD]⟩ :
      Fin ((List.range U64MOD).map (fun i => (initState.counter + 1 + i) % U64MOD)).length) <
      ⟨U64MOD - 1, by rw [hlen]; norm_num [U64MOD]⟩ := by
    simp only [Fin.mk_lt_mk]
    norm_num [U64MOD]
  have hlt := List.pairwise_iff_get.mp hpw _ _ hij
  simp only [List.get_eq_getElem, List.getElem_map, List.getElem_range, initState] at hlt
  simp only [U64MOD] at hlt
  omega

/-- C2 amended: for every create sequence from the initial state in which
fewer than `2^64` creates succeed, the returned ids are strictly increasing
in execution order and pairwise distinct. -/
theorem creates_ids_strictly_increasing (ops : List COp)
    (hlen : (runCreates initState ops).1.length < U64MOD) :
    List.Pairwise (· < ·) (runCreates initState ops).1 ∧
    (runCreates initState ops).1.Nodup := by
  have h := runCreates_ids ops initState (by simpa [initState] using hlen)
  rw [h.1]
  exact ⟨List.pairwise_lt_range' _ _, (List.pairwise_lt_range' _ _).imp Nat.ne_of_lt⟩

/-- Witness for the amended C2 at a concrete mixed sequence (timber, sale,
timber): three successes, ids 1, 2, 3. -/
theorem creates_ids_strictly_increasing_witness :
    List.Pairwise (· < ·)
      (runCreates initState
        [COp.timber 7 ⟨"oak", "2x4", 2⟩, COp.sale 8 ⟨1, 1, 1⟩,
         COp.timber 9 ⟨"cedar", "8x4", 1⟩]).1 ∧
    (runCreates initState
      [COp.timber 7 ⟨"oak", "2x4", 2⟩, COp.sale 8 ⟨1, 1, 1⟩,
       COp.timber 9 ⟨"cedar", "8x4", 1⟩]).1.Nodup :=
  creates_ids_strictly_increasing
    [COp.timber 7 ⟨"oak", "2x4", 2⟩, COp.sale 8 ⟨1, 1, 1⟩,
     COp.timber 9 ⟨"cedar", "8x4", 1⟩] (by decide)

end Timberyard
